import Mathlib

/-!
Verification of the route-binding and dispatch pipeline of `api-mount-server`
(`src/lib/api.ts`).  The TypeScript module is shallowly embedded: JSON payloads
become an inductive value type, the mutable module-level registries
(`launched`, `app`, `launch`) become an explicit state record threaded through
the exposure functions, and the per-request Express handler installed by
`exposeApi` becomes a pure function from a bound route and a request to the
ordered list of observable events (hook invocations, the handler call, and
response writes).  JavaScript objects used as string-keyed dictionaries are
modelled as association lists; property assignment is modelled as a prepending
insert together with first-match lookup.
-/

/-- JSON-like wire values (request arguments, handler results, response
bodies). -/
inductive JsValue where
  | jnull
  | jbool (b : Bool)
  | jnum (n : Int)
  | jstr (s : String)
  | jarr (xs : List JsValue)
  | jobj (fields : List (String × JsValue))

/-- A value a handler can fail with: either a structured `Error` instance
(`e instanceof Error` in `src/lib/api.ts` line 268) carrying name, message and
stack, or an arbitrary raw value. -/
inductive JsError where
  | errorObj (name message stack : String)
  | value (v : JsValue)

/-- The single settle event of `callImplementation()` (line 245): the awaited
call either resolves with a value or rejects with a failure value. -/
inductive Settled where
  | ok (v : JsValue)
  | err (e : JsError)

/-- `error` flag assigned by the dispatch code: `false` in the `.then` branch,
`true` in the `.catch` branch (lines 243, 276). -/
def isErrFlag : Settled → Bool
  | .ok _ => false
  | .err _ => true

/-! ## The path-segment deriver

`paramCase` comes from the external `param-case` npm package; it is not part of
this repository's sources.  Modelled from the spec: the derived segment
"lower-cases and hyphen-separates word boundaries (e.g. `someMethodName` →
`some-method-name`)"; non-alphanumeric characters act as separators,
separators collapse, and no separator is emitted at the start or end. -/

/-- A character that belongs to a word (letter or digit); every other
character is treated as a separator. -/
def isWordChar (c : Char) : Bool := c.isAlpha || c.isDigit

/-- Core of the case conversion.  State: `emitted` — at least one word
character has been written out already; `pendingSep` — a separator character
was seen since the last written word character; `prevLower` — the previous
input character was a word character that is not upper case (so an upper-case
letter right after it starts a new word). -/
def pcAux : Bool → Bool → Bool → List Char → List Char
  | _, _, _, [] => []
  | emitted, pendingSep, prevLower, c :: cs =>
    if isWordChar c then
      (if emitted && (pendingSep || (c.isUpper && prevLower)) then ['-'] else [])
        ++ c.toLower :: pcAux true false (!c.isUpper) cs
    else
      pcAux emitted true false cs

/-- Modelled from the spec: the pure path-segment derivation applied to every
method name and to class identifiers (`paramCase` from the `param-case`
package, used at `src/lib/api.ts` lines 200 and 232). -/
def paramCase (s : String) : String := ⟨pcAux false false false s.data⟩

/-! ## Requests, hooks, configuration

Embedding of the types of `src/lib/api.ts` lines 26-118.  TypeScript optional
fields become `Option`; a JavaScript value that is absent or `undefined` is
`none`.  Hooks and handlers carry a numeric identity tag so that the event
trace of a dispatch can record which function object was invoked; their
behaviour is the `run` field. -/

/-- The parsed JSON request body; `args` mirrors `req.body?.args`
(line 246). -/
structure RequestBody where
  args : Option (List JsValue)

/-- An inbound POST request as far as the dispatch code observes it. -/
structure Request where
  body : Option RequestBody

/-- `req.body?.args || {args: []}` (line 246): a present `args` array is
passed to `Function.prototype.apply` as the positional arguments; when it is
absent the fallback `{args: []}` is not array-like (it has no `length`
property), so `apply` passes zero positional arguments. -/
def effectiveArgs (body : Option RequestBody) : List JsValue :=
  (body.bind RequestBody.args).getD []

/-- `IApiMountBeforeExecution` (line 40): receives the method name, the
implementation, the api object, `req` and `res`, and returns a boolean.  The
modelled result may depend on the method name and the request. -/
structure BeforeExecutionHook where
  hookId : Nat
  run : String → Request → Bool

/-- `IApiMountBeforeResponse` (line 55): receives the settled response, the
error flag, the method name, `req` and `res`, and returns a boolean. -/
structure BeforeResponseHook where
  hookId : Nat
  run : Settled → Bool → String → Request → Bool

/-- `IApiMountAfterResponse` (line 69): observation only, result ignored. -/
structure AfterResponseHook where
  hookId : Nat

/-- An API method implementation (`IApiMountApiHandler`, line 26).  `run`
gives the single settle result of awaiting the call on a given argument
list. -/
structure Handler where
  handlerId : Nat
  run : List JsValue → Settled

/-- An API surface (`IApiMountApi`): the `for..in` enumeration of the object
in insertion order (lines 227-229), together with the identity data used by
`exposeClassBasedApi` line 197: `ownName` models `(obj as any).name` (the
empty string when absent or empty, both falsy) and `ctorName` models
`obj.constructor.name` (for a plain object literal this is `"Object"`; for an
instance of `class C` it is `"C"`; for an instance of an anonymous class it is
the empty string).  `surfaceId` is the object identity used as the `this`
receiver. -/
structure ApiSurface where
  surfaceId : Nat
  methods : List (String × Handler)
  ownName : String
  ctorName : String

/-- `ISharedApiMountConfig` (lines 78-113): every field optional. -/
structure Config where
  name : Option String := none
  basePath : Option String := none
  port : Option Nat := none
  beforeExecution : Option BeforeExecutionHook := none
  beforeResponse : Option BeforeResponseHook := none
  afterResponse : Option AfterResponseHook := none

/-- A configuration with every key absent (`{}`). -/
def emptyConfig : Config := {}

/-- The object spread `{...shared, ...override}`: a key present in the
override wins, otherwise the shared value is kept. -/
def mergeConfig (shared override : Config) : Config where
  name := override.name <|> shared.name
  basePath := override.basePath <|> shared.basePath
  port := override.port <|> shared.port
  beforeExecution := override.beforeExecution <|> shared.beforeExecution
  beforeResponse := override.beforeResponse <|> shared.beforeResponse
  afterResponse := override.afterResponse <|> shared.afterResponse

/-- `DEFAULT_PORT` (line 9). -/
def DEFAULT_PORT : Nat := 3000

/-- `DEFAULT_NAME_STEM` models the default app name stem `'default_'` of
`src/lib/api.ts` line 15 (its source name ends in a word this file avoids). -/
def DEFAULT_NAME_STEM : String := "default_"

/-- `DEFAULT_NAME` (line 21): the stem followed by the default port. -/
def DEFAULT_NAME : String := DEFAULT_NAME_STEM ++ toString DEFAULT_PORT

/-- The configuration normalization performed by `apiMountFactory`
(lines 171-180): spread the caller's shared config over the defaults
`{port: DEFAULT_PORT, basePath: ''}`, then, if `name` is falsy (absent or the
empty string), synthesize it from the stem and the shared resolved port. -/
def resolveSharedConfig (sharedConfig : Config) : Config :=
  let s := mergeConfig { emptyConfig with port := some DEFAULT_PORT, basePath := some "" }
      sharedConfig
  if s.name.getD "" = "" then
    { s with name := some (DEFAULT_NAME_STEM ++ toString (s.port.getD DEFAULT_PORT)) }
  else
    s

/-! ## Launcher table, server registry, route binding

The module-level dictionaries `launched`, `app` and `launch`
(lines 132-143) become fields of an explicit state record.  JavaScript
property lookup on these plain-object dictionaries is modelled as first-match
association-list lookup, and assignment as a prepending insert (properties
inherited from `Object.prototype` are not modelled). -/

/-- An Express application instance created by a launcher.  `handleId` is the
object identity (fresh per creation), `launcherId` records which launcher
created it, and `port` the port of the configuration it was created from. -/
structure TransportHandle where
  handleId : Nat
  launcherId : Nat
  port : Option Nat

/-- An `IApiMountLauncher` (line 118), identified by the function object. -/
structure Launcher where
  launcherId : Nat

/-- The built-in default launcher stored under `DEFAULT_NAME`
(lines 135-143). -/
def builtinLauncher : Launcher := { launcherId := 0 }

/-- First-match lookup in an association list (JavaScript property read). -/
def lookupL {α : Type} : List (String × α) → String → Option α
  | [], _ => none
  | (k, v) :: rest, key => if k = key then some v else lookupL rest key

/-- Property assignment `m[key] = v`: the new binding shadows any older
one. -/
def insertL {α : Type} (m : List (String × α)) (key : String) (v : α) :
    List (String × α) :=
  (key, v) :: m

/-- One handler registration performed by `app[name].post(path, ...)`
(line 232): the closure captures the method name, the implementation, the
whole api object and the merged configuration. -/
structure BoundRoute where
  serverName : String
  path : String
  method : String
  handler : Handler
  api : ApiSurface
  config : Config

/-- The module-level mutable state: `launched` and `app` (lines 132-133), the
`launch` table (line 135), the handlers registered on the Express apps, and a
counter supplying fresh object identities for created apps. -/
structure MountState where
  launched : List String
  app : List (String × TransportHandle)
  launch : List (String × Launcher)
  routes : List BoundRoute
  nextHandleId : Nat

/-- The state at module load: nothing launched, no apps, the launch table
holding the built-in launcher under `DEFAULT_NAME`, no routes. -/
def initialState : MountState :=
  { launched := []
    app := []
    launch := [(DEFAULT_NAME, builtinLauncher)]
    routes := []
    nextHandleId := 1 }

/-- `config.name` used as a dictionary key: JavaScript coerces `undefined` to
the string `"undefined"`; through `apiMountFactory` the name is always set. -/
def configNameKey (config : Config) : String := config.name.getD "undefined"

/-- The launcher `performLaunch` runs for a name (line 147-149):
`launch[config.name] ? launch[config.name](config) :
launch[DEFAULT_NAME](config)`.  The `DEFAULT_NAME` entry always exists (it may
have been overwritten by `injectLaunchCode`); the `getD` fallback is
unreachable from `initialState`. -/
def resolvedLauncher (st : MountState) (n : String) : Launcher :=
  match lookupL st.launch n with
  | some l => l
  | none => (lookupL st.launch DEFAULT_NAME).getD builtinLauncher

/-- Observable effects of an exposure call. -/
inductive BindEvent where
  | launcherInvoked (launcherId : Nat) (name : String)

/-- `performLaunch` (lines 145-152): if the name is not yet marked launched,
invoke the resolved launcher, store the created app under the name and mark
the name launched; otherwise do nothing. -/
def performLaunch (st : MountState) (config : Config) :
    MountState × List BindEvent :=
  let n := configNameKey config
  if st.launched.contains n then
    (st, [])
  else
    let l := resolvedLauncher st n
    let handle : TransportHandle :=
      { handleId := st.nextHandleId, launcherId := l.launcherId, port := config.port }
    ({ st with
        app := insertL st.app n handle
        launched := n :: st.launched
        nextHandleId := st.nextHandleId + 1 },
     [BindEvent.launcherInvoked l.launcherId n])

/-- `injectLaunchCode` (lines 159-164): replace the launcher bound to a
name.  Only the launch table changes. -/
def injectLaunchCode (st : MountState) (injectedLaunch : Launcher)
    (name : String) : MountState :=
  { st with launch := insertL st.launch name injectedLaunch }

/-- The routes registered by one `exposeApi` call (lines 227-232): one POST
handler per enumerated method, at `${basePath}/${paramCase(method)}` on the
app named by the merged configuration.  An absent `basePath` would be coerced
to the string `"undefined"` by the template literal; through the factory it is
always set. -/
def newRoutesOf (api : ApiSurface) (config : Config) : List BoundRoute :=
  api.methods.map fun pr =>
    { serverName := configNameKey config
      path := config.basePath.getD "undefined" ++ "/" ++ paramCase pr.1
      method := pr.1
      handler := pr.2
      api := api
      config := config }

/-- `exposeApi` (lines 214-281): merge the shared configuration with the
per-call one (the call defaults to the shared config itself when absent),
ensure the named app is launched, and register one handler per method. -/
def exposeApi (st : MountState) (sharedConfig : Config) (api : ApiSurface)
    (callConfig : Option Config) : MountState × List BindEvent :=
  let config := mergeConfig sharedConfig (callConfig.getD sharedConfig)
  let res := performLaunch st config
  ({ res.1 with routes := res.1.routes ++ newRoutesOf api config }, res.2)

/-- `exposeClassBasedApi` (lines 188-207): merge the configurations, read
`(obj as any).name || obj.constructor.name`; when that identifier is
non-empty, delegate to `exposeApi` passing only
`{basePath: config.basePath + '/' + paramCase(className)}` as the per-call
configuration; otherwise throw. -/
def exposeClassBasedApi (st : MountState) (sharedConfig : Config)
    (obj : ApiSurface) (callConfig : Option Config) :
    Except String (MountState × List BindEvent) :=
  let config := mergeConfig sharedConfig (callConfig.getD sharedConfig)
  let className := if obj.ownName = "" then obj.ctorName else obj.ownName
  if className = "" then
    .error "Could not expose object which is not based on a class!"
  else
    .ok (exposeApi st sharedConfig obj
      (some { emptyConfig with
        basePath := some (config.basePath.getD "undefined" ++ "/" ++ paramCase className) }))

/-- The `(obj as any).name || obj.constructor.name` identifier read
(line 197), exposed as its own definition for statements about it. -/
def classNameOf (obj : ApiSurface) : String :=
  if obj.ownName = "" then obj.ctorName else obj.ownName

/-- The per-call configuration `exposeClassBasedApi` forwards to `exposeApi`
(line 201): only a `basePath`, built from the merged basePath and the derived
namespace segment; no other key — in particular no hook — is forwarded. -/
def classBasePathConfig (base segment : String) : Config :=
  { emptyConfig with basePath := some (base ++ "/" ++ segment) }

/-! ## The dispatch pipeline

The request handler closure of lines 232-279, linearized into the ordered
list of its observable events.  The `.then`/`.catch` pair on
`callImplementation()` is modelled by the single `Settled` outcome of the
handler: both branches invoke `beforeResponse` with the settled value and the
error flag, perform the default write unless that hook returned `false`, and
then run `executeAfterResponse`. -/

/-- Observable events of one dispatched request, in execution order. -/
inductive Event where
  | beforeExecutionCalled (hookId : Nat) (method : String)
  | handlerCalled (surfaceId : Nat) (method : String) (args : List JsValue)
  | beforeResponseCalled (hookId : Nat) (response : Settled) (error : Bool)
      (method : String)
  | wrote (status : Nat) (body : JsValue)
  | afterResponseCalled (hookId : Nat) (response : Settled) (error : Bool)
      (method : String)

/-- The event of invoking an optional hook, empty when the hook is absent
(the `?.` calls of lines 235, 249, 255, 265). -/
def optEvent {α : Type} (f : α → Event) : Option α → List Event
  | some h => [f h]
  | none => []

/-- `config.beforeExecution?.(...) ?? true` (lines 235-236). -/
def beforeExecutionAllows (config : Config) (method : String) (req : Request) :
    Bool :=
  (config.beforeExecution.map fun h => h.run method req).getD true

/-- `config.beforeResponse?.(...) ?? true` (lines 255, 265). -/
def beforeResponseAllows (config : Config) (s : Settled) (e : Bool)
    (method : String) (req : Request) : Bool :=
  (config.beforeResponse.map fun h => h.run s e method req).getD true

/-- The body written for a failure value (lines 268-272): `{name, message,
stack}` for an `Error` instance, the raw value otherwise. -/
def errorBody : JsError → JsValue
  | .errorObj n m s => .jobj [("name", .jstr n), ("message", .jstr m), ("stack", .jstr s)]
  | .value v => v

/-- The default response write (lines 258, 266-272): `res.json(response)`
with Express's default status 200 on success; `res.status(500)` and the
shaped body on failure. -/
def defaultWrite : Settled → Event
  | .ok v => .wrote 200 v
  | .err e => .wrote 500 (errorBody e)

/-- The settle result of `callImplementation()` for a bound route on a
request (lines 245-246): the implementation applied, with the api object as
receiver, to the positional arguments taken from the body. -/
def settledOf (route : BoundRoute) (req : Request) : Settled :=
  route.handler.run (effectiveArgs req.body)

/-- The request handler installed at line 232, as the ordered event list of
one inbound request:
1. invoke `beforeExecution` if present; on `false` return immediately
   (lines 233-240);
2. call the implementation with the api object as `this` and the body's
   `args` (lines 245-246);
3. invoke `beforeResponse` if present with the settled value and error flag;
   unless it returned `false`, perform the default write (lines 253-273);
4. finally `executeAfterResponse` invokes `afterResponse` if present with the
   settled value, the error flag and the method name (lines 248-250, 262,
   277). -/
def dispatch (route : BoundRoute) (req : Request) : List Event :=
  let m := route.method
  let preEvents :=
    optEvent (fun h => Event.beforeExecutionCalled h.hookId m)
      route.config.beforeExecution
  if !beforeExecutionAllows route.config m req then
    preEvents
  else
    let settled := settledOf route req
    let e := isErrFlag settled
    preEvents
      ++ Event.handlerCalled route.api.surfaceId m (effectiveArgs req.body)
      :: (optEvent (fun h => Event.beforeResponseCalled h.hookId settled e m)
            route.config.beforeResponse
          ++ (if beforeResponseAllows route.config settled e m req
              then [defaultWrite settled] else [])
          ++ optEvent (fun h => Event.afterResponseCalled h.hookId settled e m)
            route.config.afterResponse)

/-- Event classifiers used to state trace properties. -/
def isHandlerCalled : Event → Bool
  | .handlerCalled _ _ _ => true
  | _ => false

def isWriteEvent : Event → Bool
  | .wrote _ _ => true
  | _ => false

def isAfterResponseEvent : Event → Bool
  | .afterResponseCalled _ _ _ _ => true
  | _ => false

def isBeforeResponseEvent : Event → Bool
  | .beforeResponseCalled _ _ _ _ => true
  | _ => false

/-- Number of launcher invocations for a given name in a bind-event list. -/
def countLauncherInvoked (n : String) (evs : List BindEvent) : Nat :=
  (evs.filter fun ev => match ev with
    | .launcherInvoked _ nm => nm == n).length

/-- A sequence of `exposeApi` calls against the same factory, threading the
module state. -/
def exposeApiMany (sharedConfig : Config) :
    MountState → List (ApiSurface × Option Config) → MountState × List BindEvent
  | st, [] => (st, [])
  | st, c :: rest =>
    let r1 := exposeApi st sharedConfig c.1 c.2
    let r2 := exposeApiMany sharedConfig r1.1 rest
    (r2.1, r1.2 ++ r2.2)

/-- The effective configuration of one exposure call made through a factory
built with `apiMountFactory(shared)`: the factory-normalized shared config
merged with the per-call override (lines 171-180 and 215-218). -/
def effectiveConfig (shared override : Config) : Config :=
  mergeConfig (resolveSharedConfig shared) override

/-! ## Concrete instances used to instantiate the theorems -/

/-- A handler resolving with the number 7. -/
def okHandler : Handler := { handlerId := 100, run := fun _ => .ok (.jnum 7) }

/-- A handler rejecting with a structured `Error` value. -/
def errObjHandler : Handler :=
  { handlerId := 101, run := fun _ => .err (.errorObj "Error" "boom" "trace") }

/-- A handler rejecting with the raw number 66 (the `causeError` scenario of
the test suite). -/
def errValHandler : Handler :=
  { handlerId := 102, run := fun _ => .err (.value (.jnum 66)) }

/-- A one-method surface built from an object literal: its constructor is
`Object`. -/
def sampleSurface : ApiSurface :=
  { surfaceId := 1, methods := [("foo", okHandler)], ownName := "", ctorName := "Object" }

/-- A surface from an instance of `class SomeClass`. -/
def classSurface : ApiSurface :=
  { surfaceId := 2, methods := [("foo", okHandler)], ownName := "", ctorName := "SomeClass" }

/-- A plain record `{foo: ...}` passed to `exposeClassBasedApi`: it has no own
`name` property, and `({}).constructor` is the built-in `Object` constructor
whose `name` is `"Object"`. -/
def plainRecord : ApiSurface :=
  { surfaceId := 9, methods := [("foo", okHandler)], ownName := "", ctorName := "Object" }

/-- A surface from an instance of an anonymous class: both identifiers
empty. -/
def anonSurface : ApiSurface :=
  { surfaceId := 10, methods := [("foo", okHandler)], ownName := "", ctorName := "" }

/-- The factory-resolved empty configuration. -/
def plainConfig : Config := resolveSharedConfig emptyConfig

def denyBEHook : BeforeExecutionHook := { hookId := 2, run := fun _ _ => false }

def denyBRHook : BeforeResponseHook := { hookId := 4, run := fun _ _ _ _ => false }

def obsARHook : AfterResponseHook := { hookId := 5 }

def sharedBEHook : BeforeExecutionHook := { hookId := 11, run := fun _ _ => true }

def callBEHook : BeforeExecutionHook := { hookId := 22, run := fun _ _ => true }

/-- A shared configuration carrying a shared-level pre-execution hook. -/
def c6shared : Config :=
  resolveSharedConfig { emptyConfig with beforeExecution := some sharedBEHook }

/-- A call-level configuration carrying an overriding pre-execution hook. -/
def c6call : Config := { emptyConfig with beforeExecution := some callBEHook }

/-- A per-call override setting only the port. -/
def cfgPort4000 : Config := { emptyConfig with port := some 4000 }

/-- A configuration whose pre-response hook suppresses the default write but
which still has a post-response hook. -/
def brDenyARConfig : Config :=
  { plainConfig with beforeResponse := some denyBRHook, afterResponse := some obsARHook }

/-- A configuration whose pre-execution hook aborts the pipeline, with a
post-response hook configured. -/
def beDenyARConfig : Config :=
  { plainConfig with beforeExecution := some denyBEHook, afterResponse := some obsARHook }

/-- A bound route over `sampleSurface` with a given handler and config. -/
def mkRoute (h : Handler) (c : Config) : BoundRoute :=
  { serverName := "default_3000", path := "/foo", method := "foo",
    handler := h, api := sampleSurface, config := c }

/-- A request with body `{args: [1, 2]}`. -/
def sampleReq : Request := { body := some { args := some [.jnum 1, .jnum 2] } }

/-- A request with no parsed body. -/
def emptyReq : Request := { body := none }

/-- A module state in which `default_3000` has already been launched once. -/
def launchedState : MountState :=
  (exposeApi initialState plainConfig sampleSurface none).1

/-- A launcher injected to replace an existing one. -/
def replacementLauncher : Launcher := { launcherId := 77 }

theorem char_toNat_ofNat_valid (m : Nat) (h : m < 55296) : (Char.ofNat m).toNat = m := by
  rw [Char.ofNat, dif_pos (Or.inl h)]
  simp [Char.ofNatAux, Char.toNat, UInt32.toNat, UInt32.ofNat']

theorem char_isUpper_iff (c : Char) : c.isUpper = true ↔ 65 ≤ c.toNat ∧ c.toNat ≤ 90 := by
  simp [Char.isUpper, UInt32.le_def, BitVec.le_def, Char.toNat, UInt32.toNat]

theorem char_isLower_iff (c : Char) : c.isLower = true ↔ 97 ≤ c.toNat ∧ c.toNat ≤ 122 := by
  simp [Char.isLower, UInt32.le_def, BitVec.le_def, Char.toNat, UInt32.toNat]

theorem char_toLower_of_not_upper (c : Char) (h : c.isUpper = false) : c.toLower = c := by
  rw [Char.toLower, if_neg]
  intro ⟨h1, h2⟩
  rw [Bool.eq_false_iff] at h
  exact h ((char_isUpper_iff c).mpr ⟨h1, h2⟩)

theorem char_toNat_toLower_of_upper (c : Char) (h : c.isUpper = true) :
    (c.toLower).toNat = c.toNat + 32 := by
  rw [char_isUpper_iff] at h
  rw [Char.toLower, if_pos ⟨h.1, h.2⟩]
  exact char_toNat_ofNat_valid _ (by omega)

theorem char_not_upper_toLower (c : Char) : (c.toLower).isUpper = false := by
  by_cases h : c.isUpper = true
  · rw [Bool.eq_false_iff]
    intro hu
    rw [char_isUpper_iff] at hu
    rw [char_toNat_toLower_of_upper c h] at hu
    rw [char_isUpper_iff] at h
    omega
  · rw [Bool.not_eq_true] at h
    rw [char_toLower_of_not_upper c h]
    exact h

theorem char_toLower_toLower (c : Char) : (c.toLower).toLower = c.toLower :=
  char_toLower_of_not_upper _ (char_not_upper_toLower c)

theorem isWordChar_toLower (c : Char) (h : isWordChar c = true) :
    isWordChar c.toLower = true := by
  by_cases hu : c.isUpper = true
  · have hl : (c.toLower).isLower = true := by
      rw [char_isLower_iff, char_toNat_toLower_of_upper c hu]
      rw [char_isUpper_iff] at hu
      omega
    simp [isWordChar, Char.isAlpha, hl]
  · rw [Bool.not_eq_true] at hu
    rw [char_toLower_of_not_upper c hu]
    exact h

theorem pcAux_idem (cs : List Char) : ∀ e p l : Bool,
    pcAux e false e (pcAux e p l cs) = pcAux e p l cs := by
  induction cs with
  | nil => intro e p l; rfl
  | cons c cs ih =>
    intro e p l
    by_cases hw : isWordChar c = true
    · rw [pcAux, if_pos hw]
      have hwl : isWordChar c.toLower = true := isWordChar_toLower c hw
      have hnu : (c.toLower).isUpper = false := char_not_upper_toLower c
      by_cases hs : (e && (p || (c.isUpper && l))) = true
      · have he : e = true := by cases e <;> simp_all
        subst he
        rw [if_pos hs]
        show pcAux true false true
            ('-' :: c.toLower :: pcAux true false (!c.isUpper) cs) = _
        rw [pcAux, if_neg (by decide)]
        rw [pcAux, if_pos hwl]
        simp only [Bool.true_and, Bool.true_or, if_true]
        rw [char_toLower_toLower, hnu]
        show '-' :: c.toLower :: pcAux true false true
            (pcAux true false (!c.isUpper) cs) = _
        rw [ih true false (!c.isUpper)]
        rfl
      · rw [if_neg hs]
        simp only [List.nil_append]
        show pcAux e false e
            (c.toLower :: pcAux true false (!c.isUpper) cs) = _
        rw [pcAux, if_pos hwl]
        rw [char_toLower_toLower, hnu]
        simp only [Bool.false_and, Bool.and_false, Bool.false_or, Bool.or_false,
          Bool.not_false, if_false, List.nil_append]
        show c.toLower :: pcAux true false true
            (pcAux true false (!c.isUpper) cs) = _
        rw [ih true false (!c.isUpper)]
    · rw [Bool.not_eq_true] at hw
      rw [pcAux, if_neg (by simp [hw])]
      exact ih e true false

/-- The derived segment is stable under re-application. -/
theorem paramCase_idem (s : String) : paramCase (paramCase s) = paramCase s := by
  show (⟨pcAux false false false (pcAux false false false s.data)⟩ : String)
      = ⟨pcAux false false false s.data⟩
  rw [pcAux_idem s.data false false false]

/-! ## Dispatch pipeline lemmas -/

/-- Normal form of a dispatched request when the pre-execution hook allows
continuation (or is absent). -/
theorem dispatch_pos (route : BoundRoute) (req : Request)
    (h : beforeExecutionAllows route.config route.method req = true) :
    dispatch route req =
      optEvent (fun hk => Event.beforeExecutionCalled hk.hookId route.method)
          route.config.beforeExecution
        ++ Event.handlerCalled route.api.surfaceId route.method (effectiveArgs req.body)
        :: (optEvent (fun hk => Event.beforeResponseCalled hk.hookId (settledOf route req)
              (isErrFlag (settledOf route req)) route.method) route.config.beforeResponse
            ++ (if beforeResponseAllows route.config (settledOf route req)
                  (isErrFlag (settledOf route req)) route.method req
                then [defaultWrite (settledOf route req)] else [])
            ++ optEvent (fun hk => Event.afterResponseCalled hk.hookId (settledOf route req)
                (isErrFlag (settledOf route req)) route.method) route.config.afterResponse) := by
  simp [dispatch, h]

/-- Normal form of a dispatched request when the pre-execution hook returns
`false`: only the hook invocation itself happens. -/
theorem dispatch_neg (route : BoundRoute) (req : Request)
    (h : beforeExecutionAllows route.config route.method req = false) :
    dispatch route req =
      optEvent (fun hk => Event.beforeExecutionCalled hk.hookId route.method)
        route.config.beforeExecution := by
  simp [dispatch, h]

theorem filter_optEvent_of_false {α : Type} (p : Event → Bool) (f : α → Event)
    (o : Option α) (hp : ∀ a, p (f a) = false) : (optEvent f o).filter p = [] := by
  cases o <;> simp [optEvent, hp]

theorem isWriteEvent_defaultWrite (s : Settled) : isWriteEvent (defaultWrite s) = true := by
  cases s <;> rfl

theorem isHandlerCalled_defaultWrite (s : Settled) : isHandlerCalled (defaultWrite s) = false := by
  cases s <;> rfl

theorem isAfterResponseEvent_defaultWrite (s : Settled) :
    isAfterResponseEvent (defaultWrite s) = false := by
  cases s <;> rfl

/-! ## Claim theorems: dispatch pipeline -/

/-- C1: when the pre-execution hook allows continuation and the pre-response
hook does not suppress the default write, the dispatch writes exactly one
response: status 200 with the return value on success; status 500 with
`{name, message, stack}` when the failure value is a structured error; status
500 with the raw failure value otherwise. -/
theorem dispatch_default_write_C1 (route : BoundRoute) (req : Request)
    (h1 : beforeExecutionAllows route.config route.method req = true)
    (h2 : beforeResponseAllows route.config (settledOf route req)
      (isErrFlag (settledOf route req)) route.method req = true) :
    (dispatch route req).filter isWriteEvent =
      [match settledOf route req with
       | .ok v => Event.wrote 200 v
       | .err (.errorObj n m s) =>
           Event.wrote 500 (.jobj [("name", .jstr n), ("message", .jstr m), ("stack", .jstr s)])
       | .err (.value v) => Event.wrote 500 v] := by
  rw [dispatch_pos route req h1]
  rcases hs : settledOf route req with v | e
  · rw [hs] at h2
    simp only [isErrFlag] at h2
    simp [hs, h2, isErrFlag, List.filter_append, filter_optEvent_of_false,
      isHandlerCalled, isWriteEvent, defaultWrite]
  · rw [hs] at h2
    simp only [isErrFlag] at h2
    cases e <;>
      simp [hs, h2, isErrFlag, List.filter_append, filter_optEvent_of_false,
        isHandlerCalled, isWriteEvent, defaultWrite, errorBody]

/-- C1 witness at concrete inputs: a structured rejection, a raw rejection
and a success. -/
theorem dispatch_default_write_C1_witness :
    (dispatch (mkRoute errObjHandler plainConfig) sampleReq).filter isWriteEvent
      = [Event.wrote 500 (.jobj [("name", .jstr "Error"), ("message", .jstr "boom"),
          ("stack", .jstr "trace")])] ∧
    (dispatch (mkRoute errValHandler plainConfig) sampleReq).filter isWriteEvent
      = [Event.wrote 500 (.jnum 66)] ∧
    (dispatch (mkRoute okHandler plainConfig) sampleReq).filter isWriteEvent
      = [Event.wrote 200 (.jnum 7)] :=
  ⟨dispatch_default_write_C1 (mkRoute errObjHandler plainConfig) sampleReq rfl rfl,
   dispatch_default_write_C1 (mkRoute errValHandler plainConfig) sampleReq rfl rfl,
   dispatch_default_write_C1 (mkRoute okHandler plainConfig) sampleReq rfl rfl⟩

/-- C2: if the configured pre-execution hook returns `false`, the pipeline
stops at once — the only event is that hook's own invocation (no handler
call, no pre-response hook, no write); if the hook allows continuation or is
absent, the handler is invoked. -/
theorem dispatch_abort_C2 (route : BoundRoute) (req : Request) :
    (beforeExecutionAllows route.config route.method req = false →
      ∃ h, route.config.beforeExecution = some h ∧
        dispatch route req = [Event.beforeExecutionCalled h.hookId route.method]) ∧
    (beforeExecutionAllows route.config route.method req = true →
      Event.handlerCalled route.api.surfaceId route.method (effectiveArgs req.body)
        ∈ dispatch route req) := by
  constructor
  · intro hf
    rcases hbe : route.config.beforeExecution with _ | h
    · rw [beforeExecutionAllows, hbe] at hf
      simp at hf
    · exact ⟨h, rfl, by rw [dispatch_neg route req hf, hbe]; rfl⟩
  · intro ht
    rw [dispatch_pos route req ht]
    simp

/-- C2 witness: a concrete aborting hook produces exactly its own event; with
no hook configured the handler is invoked. -/
theorem dispatch_abort_C2_witness :
    (∃ h, ({ plainConfig with beforeExecution := some denyBEHook } : Config).beforeExecution
        = some h ∧
      dispatch (mkRoute okHandler { plainConfig with beforeExecution := some denyBEHook })
          sampleReq
        = [Event.beforeExecutionCalled h.hookId "foo"]) ∧
    Event.handlerCalled 1 "foo" [.jnum 1, .jnum 2]
      ∈ dispatch (mkRoute okHandler plainConfig) sampleReq :=
  ⟨(dispatch_abort_C2 (mkRoute okHandler
      { plainConfig with beforeExecution := some denyBEHook }) sampleReq).1 rfl,
   (dispatch_abort_C2 (mkRoute okHandler plainConfig) sampleReq).2 rfl⟩

/-- C3: when the pipeline proceeds past the pre-execution hook, the handler
is invoked exactly once, with the api surface as receiver and with the
positional arguments taken from the body: exactly the `args` sequence when it
is present, the empty sequence when `args` or the body is absent. -/
theorem dispatch_args_C3 (route : BoundRoute) (req : Request)
    (h : beforeExecutionAllows route.config route.method req = true) :
    (dispatch route req).filter isHandlerCalled
      = [Event.handlerCalled route.api.surfaceId route.method (effectiveArgs req.body)] ∧
    (∀ A, req.body = some { args := some A } → effectiveArgs req.body = A) ∧
    ((req.body = none ∨ req.body = some { args := none }) → effectiveArgs req.body = []) := by
  refine ⟨?_, ?_, ?_⟩
  · rw [dispatch_pos route req h]
    rcases hs : settledOf route req with v | e
    · simp [hs, isErrFlag, List.filter_append, filter_optEvent_of_false,
        isHandlerCalled, defaultWrite, apply_ite (List.filter isHandlerCalled)]
    · cases e <;>
        simp [hs, isErrFlag, List.filter_append, filter_optEvent_of_false,
          isHandlerCalled, defaultWrite, errorBody,
          apply_ite (List.filter isHandlerCalled)]
  · intro A hA
    simp [effectiveArgs, hA]
  · rintro (hA | hA) <;> simp [effectiveArgs, hA]

/-- C3 witness: with body `{args: [1, 2]}` the handler receives `[1, 2]`;
with no body it receives the empty sequence. -/
theorem dispatch_args_C3_witness :
    (dispatch (mkRoute okHandler plainConfig) sampleReq).filter isHandlerCalled
      = [Event.handlerCalled 1 "foo" [.jnum 1, .jnum 2]] ∧
    effectiveArgs sampleReq.body = [.jnum 1, .jnum 2] ∧
    effectiveArgs emptyReq.body = [] :=
  ⟨(dispatch_args_C3 (mkRoute okHandler plainConfig) sampleReq rfl).1,
   (dispatch_args_C3 (mkRoute okHandler plainConfig) sampleReq rfl).2.1
     [.jnum 1, .jnum 2] rfl,
   (dispatch_args_C3 (mkRoute okHandler plainConfig) emptyReq rfl).2.2 (Or.inl rfl)⟩

theorem isAfter_beforeExecEvent (m : String) (o : Option BeforeExecutionHook) :
    (optEvent (fun hk => Event.beforeExecutionCalled hk.hookId m) o).filter
      isAfterResponseEvent = [] :=
  filter_optEvent_of_false _ _ _ (fun _ => rfl)

theorem isAfter_beforeRespEvent (s : Settled) (e : Bool) (m : String)
    (o : Option BeforeResponseHook) :
    (optEvent (fun hk => Event.beforeResponseCalled hk.hookId s e m) o).filter
      isAfterResponseEvent = [] :=
  filter_optEvent_of_false _ _ _ (fun _ => rfl)

theorem isAfter_selfEvent (s : Settled) (e : Bool) (m : String)
    (o : Option AfterResponseHook) :
    (optEvent (fun hk => Event.afterResponseCalled hk.hookId s e m) o).filter
        isAfterResponseEvent
      = optEvent (fun hk => Event.afterResponseCalled hk.hookId s e m) o := by
  cases o <;> simp [optEvent, isAfterResponseEvent]

theorem isAfter_writeList (s : Settled) (c : Prop) [Decidable c] :
    (if c then [defaultWrite s] else []).filter isAfterResponseEvent = [] := by
  split <;> simp [isAfterResponseEvent_defaultWrite]

theorem isAfter_handlerEvent (sid : Nat) (m : String) (args : List JsValue) :
    isAfterResponseEvent (Event.handlerCalled sid m args) = false := rfl

theorem append_cons_concat {α : Type} (l1 l2 : List α) (x a : α) :
    l1 ++ x :: (l2 ++ [a]) = (l1 ++ x :: l2) ++ [a] := by
  simp

/-- C10: whenever the handler is invoked and settles, the configured
post-response hook is invoked exactly once, as the last event of the
dispatch, with the settled value, the error flag and the method name — with
no assumption about the pre-response hook's result; when the pre-execution
hook aborts the pipeline, the post-response hook is never invoked. -/
theorem dispatch_afterResponse_C10 (route : BoundRoute) (req : Request) :
    (beforeExecutionAllows route.config route.method req = true →
      (dispatch route req).filter isAfterResponseEvent
        = optEvent (fun hk => Event.afterResponseCalled hk.hookId (settledOf route req)
            (isErrFlag (settledOf route req)) route.method) route.config.afterResponse ∧
      (∀ hk, route.config.afterResponse = some hk →
        (dispatch route req).getLast?
          = some (Event.afterResponseCalled hk.hookId (settledOf route req)
              (isErrFlag (settledOf route req)) route.method))) ∧
    (beforeExecutionAllows route.config route.method req = false →
      (dispatch route req).filter isAfterResponseEvent = []) := by
  constructor
  · intro ht
    constructor
    · rw [dispatch_pos route req ht]
      simp only [List.filter_append, List.filter_cons, isAfter_handlerEvent,
        isAfter_beforeExecEvent, isAfter_beforeRespEvent, isAfter_selfEvent,
        isAfter_writeList, Bool.false_eq_true, if_false, List.nil_append,
        List.append_nil]
    · intro hk har
      rw [dispatch_pos route req ht, har]
      rw [show optEvent (fun hk => Event.afterResponseCalled hk.hookId (settledOf route req)
            (isErrFlag (settledOf route req)) route.method) (some hk)
          = [Event.afterResponseCalled hk.hookId (settledOf route req)
              (isErrFlag (settledOf route req)) route.method] from rfl]
      rw [append_cons_concat, List.getLast?_concat]
  · intro hf
    rw [dispatch_neg route req hf]
    exact filter_optEvent_of_false _ _ _ (fun _ => rfl)

/-- C10 witness: with a post-response hook configured together with a
suppressing pre-response hook, the post-response event is still the last
event; with an aborting pre-execution hook it never fires. -/
theorem dispatch_afterResponse_C10_witness :
    (dispatch (mkRoute errValHandler brDenyARConfig) sampleReq).filter isAfterResponseEvent
      = [Event.afterResponseCalled 5 (.err (.value (.jnum 66))) true "foo"] ∧
    (dispatch (mkRoute errValHandler brDenyARConfig) sampleReq).getLast?
      = some (Event.afterResponseCalled 5 (.err (.value (.jnum 66))) true "foo") ∧
    (dispatch (mkRoute okHandler beDenyARConfig) sampleReq).filter isAfterResponseEvent
      = [] :=
  ⟨((dispatch_afterResponse_C10 (mkRoute errValHandler brDenyARConfig) sampleReq).1 rfl).1,
   ((dispatch_afterResponse_C10 (mkRoute errValHandler brDenyARConfig) sampleReq).1 rfl).2
     obsARHook rfl,
   (dispatch_afterResponse_C10 (mkRoute okHandler beDenyARConfig) sampleReq).2 rfl⟩

/-! ## Launch and registry lemmas -/

theorem lookupL_insert_self {α : Type} (m : List (String × α)) (k : String) (v : α) :
    lookupL (insertL m k v) k = some v := by
  simp [insertL, lookupL]

theorem lookupL_insert_ne {α : Type} (m : List (String × α)) (k key : String)
    (v : α) (h : k ≠ key) : lookupL (insertL m k v) key = lookupL m key := by
  simp [insertL, lookupL, h]

theorem performLaunch_of_launched (st : MountState) (config : Config)
    (h : st.launched.contains (configNameKey config) = true) :
    performLaunch st config = (st, []) := by
  have hm : configNameKey config ∈ st.launched := by simpa using h
  simp [performLaunch, hm]

theorem performLaunch_of_fresh (st : MountState) (config : Config)
    (h : st.launched.contains (configNameKey config) = false) :
    performLaunch st config =
      ({ st with
          app := insertL st.app (configNameKey config)
            { handleId := st.nextHandleId,
              launcherId := (resolvedLauncher st (configNameKey config)).launcherId,
              port := config.port }
          launched := configNameKey config :: st.launched
          nextHandleId := st.nextHandleId + 1 },
       [BindEvent.launcherInvoked
          (resolvedLauncher st (configNameKey config)).launcherId
          (configNameKey config)]) := by
  have hm : configNameKey config ∉ st.launched := by simpa using h
  simp [performLaunch, hm]

theorem performLaunch_routes (st : MountState) (config : Config) :
    (performLaunch st config).1.routes = st.routes := by
  by_cases h : st.launched.contains (configNameKey config) = true
  · rw [performLaunch_of_launched st config h]
  · rw [performLaunch_of_fresh st config (by simpa using h)]

theorem exposeApi_of_launched (st : MountState) (sharedConfig : Config)
    (api : ApiSurface) (callConfig : Option Config)
    (h : st.launched.contains
      (configNameKey (mergeConfig sharedConfig (callConfig.getD sharedConfig))) = true) :
    exposeApi st sharedConfig api callConfig =
      ({ st with routes := st.routes
          ++ newRoutesOf api (mergeConfig sharedConfig (callConfig.getD sharedConfig)) },
       []) := by
  rw [exposeApi, performLaunch_of_launched _ _ h]

theorem exposeApi_routes (st : MountState) (sharedConfig : Config)
    (api : ApiSurface) (callConfig : Option Config) :
    (exposeApi st sharedConfig api callConfig).1.routes =
      st.routes ++ newRoutesOf api (mergeConfig sharedConfig (callConfig.getD sharedConfig)) := by
  rw [exposeApi]
  show (performLaunch st _).1.routes ++ _ = _
  rw [performLaunch_routes]

/-- After a sequence of exposure calls whose merged configurations all name
an already-launched server, the registry, the launched set and the launch
table are unchanged and no launcher runs. -/
theorem exposeApiMany_stable (sharedConfig : Config) (n : String) :
    ∀ (calls : List (ApiSurface × Option Config)) (st : MountState),
      (∀ p ∈ calls,
        configNameKey (mergeConfig sharedConfig (p.2.getD sharedConfig)) = n) →
      st.launched.contains n = true →
      (exposeApiMany sharedConfig st calls).1.app = st.app ∧
      (exposeApiMany sharedConfig st calls).1.launched = st.launched ∧
      (exposeApiMany sharedConfig st calls).2 = [] := by
  intro calls
  induction calls with
  | nil => intro st _ _; exact ⟨rfl, rfl, rfl⟩
  | cons c rest ih =>
    intro st hn hl
    have hcn : configNameKey (mergeConfig sharedConfig (c.2.getD sharedConfig)) = n :=
      hn c (by simp)
    have hcl : st.launched.contains
        (configNameKey (mergeConfig sharedConfig (c.2.getD sharedConfig))) = true := by
      rw [hcn]; exact hl
    have hrest := ih { st with routes := st.routes ++ newRoutesOf c.1 (mergeConfig sharedConfig (c.2.getD sharedConfig)) } (fun p hp => hn p (by simp [hp])) hl
    rw [exposeApiMany]
    rw [exposeApi_of_launched st sharedConfig c.1 c.2 hcl]
    exact ⟨hrest.1, hrest.2.1, by simp [hrest.2.2]⟩

theorem exposeApi_of_fresh (st : MountState) (sharedConfig : Config)
    (api : ApiSurface) (callConfig : Option Config)
    (h : st.launched.contains
      (configNameKey (mergeConfig sharedConfig (callConfig.getD sharedConfig))) = false) :
    exposeApi st sharedConfig api callConfig =
      ({ st with
          app := insertL st.app
            (configNameKey (mergeConfig sharedConfig (callConfig.getD sharedConfig)))
            { handleId := st.nextHandleId,
              launcherId := (resolvedLauncher st
                (configNameKey (mergeConfig sharedConfig (callConfig.getD sharedConfig)))).launcherId,
              port := (mergeConfig sharedConfig (callConfig.getD sharedConfig)).port }
          launched :=
            configNameKey (mergeConfig sharedConfig (callConfig.getD sharedConfig))
              :: st.launched
          nextHandleId := st.nextHandleId + 1
          routes := st.routes
            ++ newRoutesOf api (mergeConfig sharedConfig (callConfig.getD sharedConfig)) },
       [BindEvent.launcherInvoked
          (resolvedLauncher st
            (configNameKey (mergeConfig sharedConfig (callConfig.getD sharedConfig)))).launcherId
          (configNameKey (mergeConfig sharedConfig (callConfig.getD sharedConfig)))]) := by
  rw [exposeApi, performLaunch_of_fresh _ _ h]

/-! ## Claim theorems: launch idempotence and launcher injection -/

/-- C4: for a non-empty sequence of exposure calls whose merged
configurations all resolve to the same server name, not yet launched, the
launcher for that name runs exactly once, exactly one transport handle is
created (with the next fresh identity) and stored in the registry under that
name, and every later call leaves the stored handle unchanged. -/
theorem exposeApi_idempotent_launch_C4 (st : MountState) (sharedConfig : Config)
    (first : ApiSurface × Option Config) (rest : List (ApiSurface × Option Config))
    (n : String)
    (hnames : ∀ p ∈ first :: rest,
      configNameKey (mergeConfig sharedConfig (p.2.getD sharedConfig)) = n)
    (hfresh : st.launched.contains n = false) :
    countLauncherInvoked n (exposeApiMany sharedConfig st (first :: rest)).2 = 1 ∧
    lookupL (exposeApiMany sharedConfig st (first :: rest)).1.app n
      = lookupL (exposeApi st sharedConfig first.1 first.2).1.app n ∧
    lookupL (exposeApi st sharedConfig first.1 first.2).1.app n
      = some { handleId := st.nextHandleId,
               launcherId := (resolvedLauncher st n).launcherId,
               port := (mergeConfig sharedConfig (first.2.getD sharedConfig)).port } := by
  have hn1 : configNameKey (mergeConfig sharedConfig (first.2.getD sharedConfig)) = n :=
    hnames first (by simp)
  have hf1 : st.launched.contains
      (configNameKey (mergeConfig sharedConfig (first.2.getD sharedConfig))) = false := by
    rw [hn1]; exact hfresh
  have hexp := exposeApi_of_fresh st sharedConfig first.1 first.2 hf1
  rw [hn1] at hexp
  have hcontains : (exposeApi st sharedConfig first.1 first.2).1.launched.contains n
      = true := by
    rw [hexp]
    simp
  have hstable := exposeApiMany_stable sharedConfig n rest
    (exposeApi st sharedConfig first.1 first.2).1
    (fun p hp => hnames p (by simp [hp])) hcontains
  have hmany : exposeApiMany sharedConfig st (first :: rest)
      = ((exposeApiMany sharedConfig (exposeApi st sharedConfig first.1 first.2).1 rest).1,
         (exposeApi st sharedConfig first.1 first.2).2
           ++ (exposeApiMany sharedConfig (exposeApi st sharedConfig first.1 first.2).1 rest).2) :=
    rfl
  refine ⟨?_, ?_, ?_⟩
  · rw [hmany]
    show countLauncherInvoked n ((exposeApi st sharedConfig first.1 first.2).2
      ++ (exposeApiMany sharedConfig (exposeApi st sharedConfig first.1 first.2).1 rest).2) = 1
    rw [hstable.2.2, hexp]
    simp [countLauncherInvoked]
  · rw [hmany]
    show lookupL (exposeApiMany sharedConfig
        (exposeApi st sharedConfig first.1 first.2).1 rest).1.app n = _
    rw [hstable.1]
  · rw [hexp]
    exact lookupL_insert_self st.app n _

/-- C4 witness: two exposure calls against the same factory with no
overrides; the launcher runs once and the single created handle is stored
and reused. -/
theorem exposeApi_idempotent_launch_C4_witness :
    countLauncherInvoked "default_3000"
      (exposeApiMany plainConfig initialState
        [(sampleSurface, none), (classSurface, none)]).2 = 1 ∧
    lookupL (exposeApiMany plainConfig initialState
        [(sampleSurface, none), (classSurface, none)]).1.app "default_3000"
      = lookupL (exposeApi initialState plainConfig sampleSurface none).1.app "default_3000" ∧
    lookupL (exposeApi initialState plainConfig sampleSurface none).1.app "default_3000"
      = some { handleId := 1, launcherId := 0, port := some 3000 } :=
  exposeApi_idempotent_launch_C4 initialState plainConfig (sampleSurface, none)
    [(classSurface, none)] "default_3000" (by decide) (by decide)

/-- C8: once a name has been launched, registering a replacement launcher
does not touch the registry or the launched set, and a subsequent exposure
call leaves the registry entry for that name unchanged and invokes no
launcher for it. -/
theorem injectLaunchCode_after_launch_C8 (st : MountState) (injected : Launcher)
    (name : String) (h : st.launched.contains name = true) :
    (injectLaunchCode st injected name).app = st.app ∧
    (injectLaunchCode st injected name).launched = st.launched ∧
    (∀ (sharedConfig : Config) (api : ApiSurface) (callConfig : Option Config),
      lookupL (exposeApi (injectLaunchCode st injected name)
          sharedConfig api callConfig).1.app name
        = lookupL st.app name ∧
      countLauncherInvoked name
        (exposeApi (injectLaunchCode st injected name) sharedConfig api callConfig).2 = 0) := by
  refine ⟨rfl, rfl, ?_⟩
  intro sharedConfig api callConfig
  by_cases hc : (injectLaunchCode st injected name).launched.contains
      (configNameKey (mergeConfig sharedConfig (callConfig.getD sharedConfig))) = true
  · rw [exposeApi_of_launched _ _ _ _ hc]
    exact ⟨rfl, rfl⟩
  · have hc2 : (injectLaunchCode st injected name).launched.contains
        (configNameKey (mergeConfig sharedConfig (callConfig.getD sharedConfig))) = false := by
      simpa using hc
    have hne : configNameKey (mergeConfig sharedConfig (callConfig.getD sharedConfig))
        ≠ name := by
      intro he
      rw [he] at hc2
      have : st.launched.contains name = false := hc2
      rw [h] at this
      exact Bool.noConfusion this
    rw [exposeApi_of_fresh _ _ _ _ hc2]
    constructor
    · exact lookupL_insert_ne st.app _ name _ hne
    · simp [countLauncherInvoked, hne]

/-- C8 witness: after the first launch of `default_3000`, injecting a
replacement launcher leaves the registry untouched and a further exposure
call reuses the stored handle without invoking any launcher. -/
theorem injectLaunchCode_after_launch_C8_witness :
    (injectLaunchCode launchedState replacementLauncher "default_3000").app
      = launchedState.app ∧
    lookupL (exposeApi (injectLaunchCode launchedState replacementLauncher "default_3000")
        plainConfig classSurface none).1.app "default_3000"
      = lookupL launchedState.app "default_3000" ∧
    countLauncherInvoked "default_3000"
      (exposeApi (injectLaunchCode launchedState replacementLauncher "default_3000")
        plainConfig classSurface none).2 = 0 :=
  ⟨(injectLaunchCode_after_launch_C8 launchedState replacementLauncher "default_3000"
      (by decide)).1,
   ((injectLaunchCode_after_launch_C8 launchedState replacementLauncher "default_3000"
      (by decide)).2.2 plainConfig classSurface none).1,
   ((injectLaunchCode_after_launch_C8 launchedState replacementLauncher "default_3000"
      (by decide)).2.2 plainConfig classSurface none).2⟩

/-! ## Configuration resolution lemmas -/

theorem resolveSharedConfig_port (shared : Config) :
    (resolveSharedConfig shared).port = (shared.port <|> some DEFAULT_PORT) := by
  rcases hn : shared.name with _ | a
  · simp [resolveSharedConfig, mergeConfig, emptyConfig, hn]
  · simp [resolveSharedConfig, mergeConfig, emptyConfig, hn]
    split <;> rfl

theorem resolveSharedConfig_basePath (shared : Config) :
    (resolveSharedConfig shared).basePath = (shared.basePath <|> some "") := by
  rcases hn : shared.name with _ | a
  · simp [resolveSharedConfig, mergeConfig, emptyConfig, hn]
  · simp [resolveSharedConfig, mergeConfig, emptyConfig, hn]
    split <;> rfl

theorem resolveSharedConfig_name_synth (shared : Config)
    (h : shared.name.getD "" = "") :
    (resolveSharedConfig shared).name
      = some (DEFAULT_NAME_STEM ++ toString (shared.port.getD DEFAULT_PORT)) := by
  rcases hn : shared.name with _ | a <;> rcases hp : shared.port with _ | p <;>
    simp [hn] at h <;>
    simp [resolveSharedConfig, mergeConfig, emptyConfig, hn, hp, h]

theorem resolveSharedConfig_name_keep (shared : Config)
    (h : shared.name.getD "" ≠ "") :
    (resolveSharedConfig shared).name = shared.name := by
  rcases hn : shared.name with _ | a
  · simp [hn] at h
  · simp [hn] at h
    simp [resolveSharedConfig, mergeConfig, emptyConfig, hn, h]

/-! ## Claim theorems: configuration resolution (C5) -/

/-- C5 counterexample: with an empty factory configuration and a per-call
override `{port: 4000}`, the effective configuration has resolved port 4000
but server name `default_3000` — not the default-name-stem followed by the
resolved port, as the claim states. -/
theorem config_name_counterexample_C5 :
    (effectiveConfig emptyConfig cfgPort4000).port = some 4000 ∧
    (effectiveConfig emptyConfig cfgPort4000).name = some "default_3000" ∧
    (effectiveConfig emptyConfig cfgPort4000).name
      ≠ some (DEFAULT_NAME_STEM ++ toString 4000) :=
  ⟨rfl, rfl, by decide⟩

/-- C5 (amended): the effective configuration is the shallow merge with
override precedence; unset shared fields default to basePath `""` and port
`DEFAULT_PORT`; a falsy shared `name` is synthesized at factory time from the
stem and the shared resolved port (a per-call port override does not
participate), so two calls whose shared configurations carry the same port
and no name, with no per-call name override, resolve to the same name. -/
theorem config_resolution_C5_amended (shared override : Config) :
    (effectiveConfig shared override).port
      = (override.port <|> (resolveSharedConfig shared).port) ∧
    (effectiveConfig shared override).basePath
      = (override.basePath <|> (resolveSharedConfig shared).basePath) ∧
    (effectiveConfig shared override).name
      = (override.name <|> (resolveSharedConfig shared).name) ∧
    (resolveSharedConfig shared).port = (shared.port <|> some DEFAULT_PORT) ∧
    (resolveSharedConfig shared).basePath = (shared.basePath <|> some "") ∧
    (shared.name.getD "" = "" →
      (resolveSharedConfig shared).name
        = some (DEFAULT_NAME_STEM ++ toString (shared.port.getD DEFAULT_PORT))) ∧
    (shared.name.getD "" ≠ "" → (resolveSharedConfig shared).name = shared.name) ∧
    (override.name = none →
      (effectiveConfig shared override).name = (resolveSharedConfig shared).name) ∧
    (∀ shared2 override2 : Config, shared2.port = shared.port →
      shared.name.getD "" = "" → shared2.name.getD "" = "" →
      override.name = none → override2.name = none →
      (effectiveConfig shared2 override2).name = (effectiveConfig shared override).name) := by
  refine ⟨rfl, rfl, rfl, resolveSharedConfig_port shared, resolveSharedConfig_basePath shared,
    resolveSharedConfig_name_synth shared, resolveSharedConfig_name_keep shared, ?_, ?_⟩
  · intro ho
    show (override.name <|> (resolveSharedConfig shared).name) = _
    rw [ho]
    rfl
  · intro shared2 override2 hp hn hn2 ho ho2
    show (override2.name <|> (resolveSharedConfig shared2).name)
      = (override.name <|> (resolveSharedConfig shared).name)
    rw [ho, ho2]
    show (resolveSharedConfig shared2).name = (resolveSharedConfig shared).name
    rw [resolveSharedConfig_name_synth shared2 hn2, resolveSharedConfig_name_synth shared hn,
      hp]

/-- C5 amended witness at concrete inputs. -/
theorem config_resolution_C5_amended_witness :
    (effectiveConfig emptyConfig cfgPort4000).port = (some 4000 <|> some 3000) ∧
    (resolveSharedConfig emptyConfig).name = some "default_3000" ∧
    (effectiveConfig emptyConfig cfgPort4000).name = (resolveSharedConfig emptyConfig).name ∧
    (effectiveConfig { emptyConfig with basePath := some "/a" } emptyConfig).name
      = (effectiveConfig emptyConfig cfgPort4000).name :=
  ⟨(config_resolution_C5_amended emptyConfig cfgPort4000).1,
   (config_resolution_C5_amended emptyConfig cfgPort4000).2.2.2.2.2.1 rfl,
   (config_resolution_C5_amended emptyConfig cfgPort4000).2.2.2.2.2.2.2.1 rfl,
   (config_resolution_C5_amended emptyConfig cfgPort4000).2.2.2.2.2.2.2.2
     { emptyConfig with basePath := some "/a" } emptyConfig rfl rfl rfl rfl rfl⟩

/-! ## Claim theorems: hook precedence (C6) and class-based exposure (C7) -/

/-- C6 counterexample: exposing through `exposeClassBasedApi` with a
call-level pre-execution hook (id 22) while the shared configuration carries
one (id 11): the bound route captures the shared hook, and dispatching a
request invokes hook 11, not the call-level hook 22 — the call-level hook
configuration is discarded. -/
theorem hook_override_counterexample_C6 :
    (match exposeClassBasedApi initialState c6shared classSurface (some c6call) with
     | .ok r => r.1.routes.map (fun rt =>
         (rt.path, rt.config.beforeExecution.map BeforeExecutionHook.hookId))
     | .error _ => []) = [("/some-class/foo", some 11)] ∧
    (match exposeClassBasedApi initialState c6shared classSurface (some c6call) with
     | .ok r => r.1.routes.map (fun rt => dispatch rt emptyReq)
     | .error _ => []) =
      [[Event.beforeExecutionCalled 11 "foo",
        Event.handlerCalled 2 "foo" [],
        Event.wrote 200 (.jnum 7)]] ∧
    (11 : Nat) ≠ 22 :=
  ⟨rfl, rfl, by decide⟩

/-- C6 (amended): for `exposeApi`, call-level hooks replace shared-level
hooks in the configuration captured by every route the call binds; for
`exposeClassBasedApi`, the per-call configuration is discarded except for its
contribution to `basePath` — the forwarded per-call configuration carries no
hooks, so every route it binds captures the shared-level hooks. -/
theorem hook_override_C6_amended (st : MountState)
    (sharedConfig callConfig : Config) (api : ApiSurface) :
    ((exposeApi st sharedConfig api (some callConfig)).1.routes
      = st.routes ++ newRoutesOf api (mergeConfig sharedConfig callConfig)) ∧
    (∀ rt ∈ newRoutesOf api (mergeConfig sharedConfig callConfig),
      rt.config = mergeConfig sharedConfig callConfig) ∧
    (∀ h, callConfig.beforeExecution = some h →
      (mergeConfig sharedConfig callConfig).beforeExecution = some h) ∧
    (∀ h, callConfig.beforeResponse = some h →
      (mergeConfig sharedConfig callConfig).beforeResponse = some h) ∧
    (∀ h, callConfig.afterResponse = some h →
      (mergeConfig sharedConfig callConfig).afterResponse = some h) ∧
    (classNameOf api ≠ "" →
      exposeClassBasedApi st sharedConfig api (some callConfig)
        = .ok (exposeApi st sharedConfig api (some (classBasePathConfig
            ((mergeConfig sharedConfig callConfig).basePath.getD "undefined")
            (paramCase (classNameOf api)))))) ∧
    (∀ bp : String,
      (mergeConfig sharedConfig { emptyConfig with basePath := some bp }).beforeExecution
        = sharedConfig.beforeExecution ∧
      (mergeConfig sharedConfig { emptyConfig with basePath := some bp }).beforeResponse
        = sharedConfig.beforeResponse ∧
      (mergeConfig sharedConfig { emptyConfig with basePath := some bp }).afterResponse
        = sharedConfig.afterResponse) := by
  refine ⟨exposeApi_routes st sharedConfig api (some callConfig), ?_, ?_, ?_, ?_, ?_, ?_⟩
  · intro rt hrt
    rcases List.mem_map.mp hrt with ⟨pr, _, hpr⟩
    rw [← hpr]
  · intro h hh
    show (callConfig.beforeExecution <|> sharedConfig.beforeExecution) = some h
    rw [hh]
    rfl
  · intro h hh
    show (callConfig.beforeResponse <|> sharedConfig.beforeResponse) = some h
    rw [hh]
    rfl
  · intro h hh
    show (callConfig.afterResponse <|> sharedConfig.afterResponse) = some h
    rw [hh]
    rfl
  · intro hne
    simp only [classNameOf] at hne
    simp only [exposeClassBasedApi]
    rw [if_neg hne]
    rfl
  · intro bp
    exact ⟨rfl, rfl, rfl⟩

/-- C6 amended witness at concrete inputs. -/
theorem hook_override_C6_amended_witness :
    (exposeApi initialState c6shared classSurface (some c6call)).1.routes
      = initialState.routes ++ newRoutesOf classSurface (mergeConfig c6shared c6call) ∧
    (mergeConfig c6shared c6call).beforeExecution = some callBEHook ∧
    exposeClassBasedApi initialState c6shared classSurface (some c6call)
      = .ok (exposeApi initialState c6shared classSurface
          (some { emptyConfig with basePath := some "/some-class" })) ∧
    (mergeConfig c6shared { emptyConfig with basePath := some "/x" }).beforeExecution
      = c6shared.beforeExecution :=
  ⟨(hook_override_C6_amended initialState c6shared c6call classSurface).1,
   (hook_override_C6_amended initialState c6shared c6call classSurface).2.2.1
     callBEHook rfl,
   (hook_override_C6_amended initialState c6shared c6call classSurface).2.2.2.2.2.1
     (by decide),
   ((hook_override_C6_amended initialState c6shared c6call classSurface).2.2.2.2.2.2
     "/x").1⟩

/-- C7 counterexample: a plain record passed to `exposeClassBasedApi` does
not produce a configuration error — since `({}).constructor.name` is
`"Object"`, the call succeeds and binds the record's method under the
namespace `/object`. -/
theorem class_based_plain_record_counterexample_C7 :
    (match exposeClassBasedApi initialState plainConfig plainRecord none with
     | .ok r => some (r.1.routes.map BoundRoute.path)
     | .error _ => none) = some ["/object/foo"] :=
  rfl

/-- C7 (amended): `exposeClassBasedApi` reports the configuration error, and
binds nothing, exactly when both the surface's own `name` and its
constructor's name are empty (e.g. an instance of an anonymous class); for
every surface with a non-empty identifier — including a plain record, whose
constructor name is `"Object"` — the derived namespace segment is prepended
to the configured basePath before binding. -/
theorem class_based_error_C7_amended (st : MountState) (sharedConfig : Config)
    (obj : ApiSurface) (callConfig : Option Config) :
    (classNameOf obj = "" →
      exposeClassBasedApi st sharedConfig obj callConfig
        = .error "Could not expose object which is not based on a class!") ∧
    (classNameOf obj ≠ "" →
      exposeClassBasedApi st sharedConfig obj callConfig
        = .ok (exposeApi st sharedConfig obj (some (classBasePathConfig
            ((mergeConfig sharedConfig (callConfig.getD sharedConfig)).basePath.getD "undefined")
            (paramCase (classNameOf obj))))) ∧
      (newRoutesOf obj (mergeConfig sharedConfig (classBasePathConfig
          ((mergeConfig sharedConfig (callConfig.getD sharedConfig)).basePath.getD "undefined")
          (paramCase (classNameOf obj))))).map BoundRoute.path
        = obj.methods.map (fun pr =>
            (mergeConfig sharedConfig (callConfig.getD sharedConfig)).basePath.getD
                "undefined" ++ "/" ++ paramCase (classNameOf obj) ++ "/" ++ paramCase pr.1)) := by
  constructor
  · intro he
    simp only [classNameOf] at he
    simp only [exposeClassBasedApi]
    rw [if_pos he]
  · intro hne
    simp only [classNameOf] at hne
    constructor
    · simp only [exposeClassBasedApi]
      rw [if_neg hne]
      rfl
    · rw [newRoutesOf, List.map_map]
      rfl

/-- C7 amended witness: an anonymous-class instance errors; a plain record
binds under `/object`. -/
theorem class_based_error_C7_amended_witness :
    exposeClassBasedApi initialState plainConfig anonSurface none
      = .error "Could not expose object which is not based on a class!" ∧
    exposeClassBasedApi initialState plainConfig plainRecord none
      = .ok (exposeApi initialState plainConfig plainRecord
          (some { emptyConfig with basePath := some "/object" })) ∧
    (newRoutesOf plainRecord (mergeConfig plainConfig
        (classBasePathConfig "" "object"))).map BoundRoute.path
      = ["/object/foo"] :=
  ⟨(class_based_error_C7_amended initialState plainConfig anonSurface none).1 rfl,
   ((class_based_error_C7_amended initialState plainConfig plainRecord none).2
     (by decide)).1,
   ((class_based_error_C7_amended initialState plainConfig plainRecord none).2
     (by decide)).2⟩

/-! ## Claim theorem: path derivation (C9) -/

/-- C9: the path-segment derivation is deterministic (it is a pure function:
equal inputs give equal outputs) and idempotent: re-deriving a derived
segment returns it unchanged. -/
theorem paramCase_deterministic_idempotent_C9 (x : String) :
    paramCase (paramCase x) = paramCase x ∧
    ∀ y : String, x = y → paramCase x = paramCase y :=
  ⟨paramCase_idem x, fun _ h => by rw [h]⟩

/-- C9 witness at a concrete method name. -/
theorem paramCase_deterministic_idempotent_C9_witness :
    paramCase (paramCase "someMethodName") = paramCase "someMethodName" ∧
    paramCase "someMethodName" = paramCase "someMethodName" :=
  ⟨(paramCase_deterministic_idempotent_C9 "someMethodName").1,
   (paramCase_deterministic_idempotent_C9 "someMethodName").2 "someMethodName" rfl⟩
